import Mathlib

/-
Verification of the minibmg graph construction and validation engine
(src/minibmg/minibmg.h, namespace beanmachine::minibmg).

The repository ships only the header: the enum Operator (with per-operator
parameter and result type documentation), enum Type, the Node class
hierarchy (Node, OperatorNode, ConstantNode, QueryNode), and the
declarations of Graph::create and Graph::Factory.  The bodies of
Graph::create and the Factory methods are not in the sources, so their
behaviour below is modelled from the specification (spec sections 4.2 and
4.3) and from the header comments, as flagged on each definition.
-/

namespace minibmg

/-- Embeds enum Operator from minibmg.h lines 21-75. -/
inductive Operator where
  | CONSTANT
  | ADD
  | MULTIPLY
  | DISTRIBUTION_NORMAL
  | DISTRIBUTION_BETA
  | DISTRIBUTION_BERNOULLI
  | SAMPLE
  | OBSERVE
  | QUERY
  | LAST
  deriving DecidableEq, Repr

/-- Embeds enum Type from minibmg.h lines 77-84 (named Ty because Type is
reserved in Lean): NONE, REAL, DISTRIBUTION. -/
inductive Ty where
  | NONE
  | REAL
  | DISTRIBUTION
  deriving DecidableEq, Repr

/-- Embeds the Node class hierarchy of minibmg.h lines 118-160 as a tagged
variant (as the spec design notes direct): every node carries a sequence
number, an operator tag and a result type; a ConstantNode carries a literal
value (double, embedded as Rat since no claim computes with it); an
OperatorNode carries the list of parent nodes (in_nodes, pointers in the
source); a QueryNode is an OperatorNode that additionally carries a
query_index. -/
inductive Node where
  | constant (value : Rat) (sequence : Nat) (op : Operator) (type : Ty)
  | operator (in_nodes : List Node) (sequence : Nat) (op : Operator) (type : Ty)
  | query (query_index : Nat) (in_nodes : List Node) (sequence : Nat) (op : Operator) (type : Ty)

/-- The sequence field shared by all node shapes (Node::sequence). -/
def Node.sequence : Node → Nat
  | .constant _ s _ _ => s
  | .operator _ s _ _ => s
  | .query _ _ s _ _ => s

/-- The operator tag shared by all node shapes (Node::op). -/
def Node.op : Node → Operator
  | .constant _ _ o _ => o
  | .operator _ _ o _ => o
  | .query _ _ _ o _ => o

/-- The result type shared by all node shapes (Node::type). -/
def Node.type : Node → Ty
  | .constant _ _ _ t => t
  | .operator _ _ _ t => t
  | .query _ _ _ _ t => t

/-- The ordered parent list: empty for a ConstantNode, the in_nodes field
for an OperatorNode or QueryNode. -/
def Node.in_nodes : Node → List Node
  | .constant _ _ _ _ => []
  | .operator ps _ _ _ => ps
  | .query _ ps _ _ _ => ps

/-- True for the node shapes that are OperatorNodes in the source hierarchy
(OperatorNode and its subclass QueryNode), false for ConstantNode. -/
def Node.is_operator_node : Node → Bool
  | .constant _ _ _ _ => false
  | .operator _ _ _ _ => true
  | .query _ _ _ _ _ => true

/-- Modelled from the spec: the Type and Operator Catalog (spec section 4.1),
whose implementing code (minibmg.cpp) is not in the sources.  The rows are
taken from the operator documentation in minibmg.h lines 21-75: the required
parameter types, in order, for each operator; none for the sentinel LAST,
which is not a real operator. -/
def expected_parents : Operator → Option (List Ty)
  | .CONSTANT => some []
  | .ADD => some [.REAL, .REAL]
  | .MULTIPLY => some [.REAL, .REAL]
  | .DISTRIBUTION_NORMAL => some [.REAL, .REAL]
  | .DISTRIBUTION_BETA => some [.REAL, .REAL]
  | .DISTRIBUTION_BERNOULLI => some [.REAL]
  | .SAMPLE => some [.DISTRIBUTION]
  | .OBSERVE => some [.DISTRIBUTION, .REAL]
  | .QUERY => some [.REAL]
  | .LAST => none

/-- Modelled from the spec: the result-type column of the Catalog (spec
section 4.1), from the header comments of minibmg.h lines 21-75; none for
the sentinel LAST. -/
def op_result : Operator → Option Ty
  | .CONSTANT => some .REAL
  | .ADD => some .REAL
  | .MULTIPLY => some .REAL
  | .DISTRIBUTION_NORMAL => some .DISTRIBUTION
  | .DISTRIBUTION_BETA => some .DISTRIBUTION
  | .DISTRIBUTION_BERNOULLI => some .DISTRIBUTION
  | .SAMPLE => some .REAL
  | .OBSERVE => some .NONE
  | .QUERY => some .NONE
  | .LAST => none

/-- The validation error taxonomy of spec section 7.  The source declares
that Graph::create throws an exception on an invalid node list; the concrete
error kinds are modelled from the spec. -/
inductive GraphError where
  | UnknownParent
  | MalformedSequence
  | CyclicOrForwardReference
  | ArityMismatch
  | TypeMismatch
  | DuplicateQueryIndex
  | QueryIndexGap
  deriving DecidableEq, Repr

/-- Embeds class Graph (minibmg.h lines 86-116): the validated, immutable
node list. -/
structure Graph where
  nodes : List Node

/-- Modelled from the spec: validator check 1 (sequence integrity, spec
section 4.3): the node at position i has sequence number exactly i. -/
def sequence_check (nodes : List Node) : Bool :=
  (List.range nodes.length).all fun i =>
    match nodes.get? i with
    | some n => n.sequence == i
    | none => false

/-- Modelled from the spec: validator check 2 (parent ordering, spec section
4.3): for every node, every parent has a strictly smaller sequence number. -/
def parent_order_check (nodes : List Node) : Bool :=
  nodes.all fun n => n.in_nodes.all fun p => p.sequence < n.sequence

/-- Modelled from the spec: validator check 3 (arity and type, spec section
4.3) applied to a single node.  A ConstantNode is not an OperatorNode and is
not checked; for an OperatorNode the Catalog row of its operator gives the
required parent types in order: a parent-count mismatch is an ArityMismatch,
a parent whose result type differs from the required type at its position is
a TypeMismatch. -/
def node_arity_type (n : Node) : Option GraphError :=
  if ¬ n.is_operator_node then none
  else
    match expected_parents n.op with
    | none => some .ArityMismatch
    | some ts =>
      if n.in_nodes.length ≠ ts.length then some .ArityMismatch
      else if n.in_nodes.map Node.type ≠ ts then some .TypeMismatch
      else none

/-- The first arity or type error over the node list, in order (the
validator fails fast on the first violation). -/
def first_arity_type_error : List Node → Option GraphError
  | [] => none
  | n :: rest =>
    match node_arity_type n with
    | some e => some e
    | none => first_arity_type_error rest

/-- The query_index values of the QueryNodes of the list, in list order. -/
def query_indices (nodes : List Node) : List Nat :=
  nodes.filterMap fun n =>
    match n with
    | .query qi _ _ _ _ => some qi
    | _ => none

/-- Whether a list of naturals contains a repeated element. -/
def has_dup : List Nat → Bool
  | [] => false
  | x :: xs => xs.elem x || has_dup xs

/-- Modelled from the spec: validator check 4 (query index density, spec
section 4.3): collect all QueryNode query_index values; a repeated value is
a DuplicateQueryIndex, and otherwise a value outside the dense range
0..k-1 (k the number of queries) is a QueryIndexGap. -/
def query_index_check (nodes : List Node) : Option GraphError :=
  if has_dup (query_indices nodes) then some .DuplicateQueryIndex
  else if (query_indices nodes).any fun q => (query_indices nodes).length ≤ q then
    some .QueryIndexGap
  else none

/-- Modelled from the spec: Graph::create (declared at minibmg.h line 93,
body not in the sources).  Validates that the node list forms a valid graph
per spec section 4.3 — checks 1 to 4 in order, failing fast with the first
violation — and on success wraps the same node list as the immutable
Graph. -/
def Graph.create (nodes : List Node) : Except GraphError Graph :=
  if ¬ sequence_check nodes then .error .MalformedSequence
  else if ¬ parent_order_check nodes then .error .CyclicOrForwardReference
  else
    match first_arity_type_error nodes with
    | some e => .error e
    | none =>
      match query_index_check nodes with
      | some e => .error e
      | none => .ok ⟨nodes⟩

/-- Embeds class Graph::Factory (minibmg.h lines 103-115): the accumulating
node list and the running next-query counter. -/
structure Factory where
  nodes : List Node
  next_query : Nat

/-- A Factory is created empty (spec section 3). -/
def Factory.empty : Factory := ⟨[], 0⟩

/-- Modelled from the spec: Factory::add_constant (declared at minibmg.h
line 105, body not in the sources).  Appends a ConstantNode with the given
literal, the freshly assigned sequence id, operator CONSTANT and result
type REAL; always succeeds and returns the new id. -/
def Factory.add_constant (f : Factory) (value : Rat) : Factory × Nat :=
  (⟨f.nodes ++ [Node.constant value f.nodes.length .CONSTANT .REAL], f.next_query⟩,
    f.nodes.length)

/-- Looks up each parent id in the accumulated node list, in order; none if
any id is out of range. -/
def Factory.lookup_parents (f : Factory) : List Nat → Option (List Node)
  | [] => some []
  | p :: rest =>
    match f.nodes.get? p, f.lookup_parents rest with
    | some n, some ns => some (n :: ns)
    | _, _ => none

/-- Modelled from the spec: Factory::add_operator (declared at minibmg.h
line 106, body not in the sources).  Fails with UnknownParent if any parent
id does not refer to an already-added node; otherwise appends an
OperatorNode wired to those nodes, with the catalog result type of the
operator, performing no arity or type checking, and returns the new id. -/
def Factory.add_operator (f : Factory) (op : Operator) (parents : List Nat) :
    Except GraphError (Factory × Nat) :=
  match f.lookup_parents parents with
  | none => .error .UnknownParent
  | some ps =>
    .ok (⟨f.nodes ++ [Node.operator ps f.nodes.length op ((op_result op).getD .NONE)],
      f.next_query⟩, f.nodes.length)

/-- Modelled from the spec: Factory::add_query (declared at minibmg.h line
107, body not in the sources).  Fails with UnknownParent if the parent id
does not refer to an already-added node; otherwise appends a QueryNode with
operator QUERY, result type NONE and query_index the current next-query
counter, increments that counter, and returns the new node id. -/
def Factory.add_query (f : Factory) (parent : Nat) : Except GraphError (Factory × Nat) :=
  match f.nodes.get? parent with
  | none => .error .UnknownParent
  | some p =>
    .ok (⟨f.nodes ++ [Node.query f.next_query [p] f.nodes.length .QUERY .NONE],
      f.next_query + 1⟩, f.nodes.length)

/-- Modelled from the spec: Factory::get_node (declared at minibmg.h line
108, body not in the sources).  Read-only lookup by sequence id; fails with
UnknownParent if absent. -/
def Factory.get_node (f : Factory) (id : Nat) : Except GraphError Node :=
  match f.nodes.get? id with
  | none => .error .UnknownParent
  | some n => .ok n

/-- Modelled from the spec: Factory::build (declared at minibmg.h line 109,
body not in the sources).  Hands the accumulated node list to the
validator. -/
def Factory.build (f : Factory) : Except GraphError Graph :=
  Graph.create f.nodes

/-- Inversion of a successful validation: the graph wraps the same node
list and all four checks passed. -/
theorem create_ok_inv {nodes : List Node} {g : Graph}
    (h : Graph.create nodes = .ok g) :
    g = ⟨nodes⟩ ∧ sequence_check nodes = true ∧ parent_order_check nodes = true ∧
      first_arity_type_error nodes = none ∧ query_index_check nodes = none := by
  unfold Graph.create at h
  by_cases h1 : sequence_check nodes = true
  · rw [if_neg (not_not_intro h1)] at h
    by_cases h2 : parent_order_check nodes = true
    · rw [if_neg (not_not_intro h2)] at h
      cases h3 : first_arity_type_error nodes with
      | some e => rw [h3] at h; simp at h
      | none =>
        rw [h3] at h
        cases h4 : query_index_check nodes with
        | some e => rw [h4] at h; simp at h
        | none =>
          rw [h4] at h
          simp only [Except.ok.injEq] at h
          exact ⟨h.symm, h1, h2, rfl, rfl⟩
    · rw [if_pos h2] at h; simp at h
  · rw [if_pos h1] at h; simp at h

/-- Converse: if all four checks pass, validation succeeds and wraps the
node list. -/
theorem create_ok_of_checks {nodes : List Node}
    (h1 : sequence_check nodes = true) (h2 : parent_order_check nodes = true)
    (h3 : first_arity_type_error nodes = none) (h4 : query_index_check nodes = none) :
    Graph.create nodes = .ok ⟨nodes⟩ := by
  unfold Graph.create
  rw [h1, h2, h3, h4]
  simp

/-- Check 1 unfolded: in a sequence-checked list, the node at position i has
sequence number i. -/
theorem sequence_check_spec {nodes : List Node} (h : sequence_check nodes = true)
    {i : Nat} {n : Node} (hget : nodes.get? i = some n) : n.sequence = i := by
  have hi : i < nodes.length := by
    rcases List.get?_eq_some.mp hget with ⟨hlt, _⟩
    exact hlt
  have := (List.all_eq_true.mp h) i (List.mem_range.mpr hi)
  rw [hget] at this
  simpa using this

/-- Check 2 unfolded: in a parent-order-checked list, every parent of every
node has a strictly smaller sequence number. -/
theorem parent_order_spec {nodes : List Node} (h : parent_order_check nodes = true)
    {n : Node} (hn : n ∈ nodes) {p : Node} (hp : p ∈ n.in_nodes) :
    p.sequence < n.sequence := by
  have := (List.all_eq_true.mp h) n hn
  have := (List.all_eq_true.mp this) p hp
  simpa using this

/-- Check 3 passes over a list exactly when it passes on each node. -/
theorem first_arity_type_error_eq_none {l : List Node} :
    first_arity_type_error l = none ↔ ∀ n ∈ l, node_arity_type n = none := by
  induction l with
  | nil => simp [first_arity_type_error]
  | cons n rest ih =>
    unfold first_arity_type_error
    cases hn : node_arity_type n with
    | some e => simp [hn]
    | none => simp [hn, ih]

/-- A node passing check 3 that is an OperatorNode has exactly the catalog
parent types, in order; in particular its operator has a catalog row. -/
theorem node_arity_type_none_inv {n : Node} (h : node_arity_type n = none)
    (hop : n.is_operator_node = true) :
    expected_parents n.op = some (n.in_nodes.map Node.type) := by
  unfold node_arity_type at h
  rw [hop, if_neg (not_not_intro rfl)] at h
  cases hexp : expected_parents n.op with
  | none => rw [hexp] at h; exact absurd h (by simp)
  | some ts =>
    rw [hexp] at h
    simp only [] at h
    by_cases hlen : n.in_nodes.length = ts.length
    · rw [if_neg (not_not_intro hlen)] at h
      by_cases hty : n.in_nodes.map Node.type = ts
      · rw [hty]
      · rw [if_pos hty] at h
        exact absurd h (by simp)
    · rw [if_pos hlen] at h
      exact absurd h (by simp)

/-- The duplicate scan returns false exactly on lists with no repeats. -/
theorem has_dup_eq_false_iff {l : List Nat} : has_dup l = false ↔ l.Nodup := by
  induction l with
  | nil => simp [has_dup]
  | cons x xs ih =>
    unfold has_dup
    rw [Bool.or_eq_false_iff, List.nodup_cons]
    constructor
    · rintro ⟨hc, hd⟩
      refine ⟨fun hmem => ?_, ih.mp hd⟩
      rw [List.elem_iff.mpr hmem] at hc
      simp at hc
    · rintro ⟨hx, hnd⟩
      refine ⟨?_, ih.mpr hnd⟩
      cases he : xs.elem x with
      | false => rfl
      | true => exact absurd (List.elem_iff.mp he) hx

/-- Check 4 passes exactly when the collected indices have no repeats and
all lie below the number of queries. -/
theorem query_index_check_none_iff {nodes : List Node} :
    query_index_check nodes = none ↔
      (query_indices nodes).Nodup ∧
      ∀ q ∈ query_indices nodes, q < (query_indices nodes).length := by
  unfold query_index_check
  split
  · rename_i hd
    constructor
    · intro h; simp at h
    · rintro ⟨hnd, -⟩
      rw [has_dup_eq_false_iff.mpr hnd] at hd
      simp at hd
  · rename_i hd
    have hnd : (query_indices nodes).Nodup :=
      has_dup_eq_false_iff.mp (Bool.eq_false_iff.mpr hd)
    split
    · rename_i hany
      constructor
      · intro h; simp at h
      · rintro ⟨-, hall⟩
        rcases List.any_eq_true.mp hany with ⟨q, hq, hge⟩
        exact absurd (hall q hq) (Nat.not_lt.mpr (by simpa using hge))
    · rename_i hany
      constructor
      · intro _
        refine ⟨hnd, fun q hq => ?_⟩
        by_contra hlt
        exact hany (List.any_eq_true.mpr ⟨q, hq, decide_eq_true (Nat.not_lt.mp hlt)⟩)
      · intro _
        rfl

/-- Pigeonhole: a duplicate-free list of naturals all below its length
contains every natural below its length. -/
theorem mem_of_nodup_lt_length {l : List Nat} (hnd : l.Nodup)
    (hlt : ∀ q ∈ l, q < l.length) : ∀ i, i < l.length → i ∈ l := by
  intro i hi
  have hsub : l.toFinset ⊆ Finset.range l.length := by
    intro x hx
    exact Finset.mem_range.mpr (hlt x (List.mem_toFinset.mp hx))
  have hcard : (Finset.range l.length).card ≤ l.toFinset.card := by
    rw [Finset.card_range, List.toFinset_card_of_nodup hnd]
  have heq := Finset.eq_of_subset_of_card_le hsub hcard
  have hmem : i ∈ Finset.range l.length := Finset.mem_range.mpr hi
  rw [← heq] at hmem
  exact List.mem_toFinset.mp hmem

/-- Parent lookup fails exactly when some id is outside the accumulated
node list. -/
theorem lookup_parents_eq_none_iff {f : Factory} {ps : List Nat} :
    f.lookup_parents ps = none ↔ ∃ p ∈ ps, f.nodes.length ≤ p := by
  induction ps with
  | nil => simp [Factory.lookup_parents]
  | cons p rest ih =>
    unfold Factory.lookup_parents
    cases hp : f.nodes.get? p with
    | some n =>
      cases hr : f.lookup_parents rest with
      | some ns =>
        constructor
        · intro h
          simp at h
        · rintro ⟨q, hq, hge⟩
          rcases List.mem_cons.mp hq with rfl | hq2
          · rw [List.get?_eq_none.mpr hge] at hp
            simp at hp
          · rw [ih.mpr ⟨q, hq2, hge⟩] at hr
            simp at hr
      | none =>
        constructor
        · intro _
          rcases ih.mp hr with ⟨q, hq, hge⟩
          exact ⟨q, List.mem_cons_of_mem _ hq, hge⟩
        · intro _
          rfl
    | none =>
      have hmem : ∃ q ∈ p :: rest, f.nodes.length ≤ q :=
        ⟨p, List.mem_cons_self _ _, List.get?_eq_none.mp hp⟩
      cases hr : f.lookup_parents rest <;> exact ⟨fun _ => hmem, fun _ => rfl⟩

/-- A node with an arity or type violation keeps the whole list from
validating. -/
theorem create_ne_ok_of_arity_type_error {nodes : List Node} {n : Node}
    {e : GraphError} (hn : n ∈ nodes) (he : node_arity_type n = some e) :
    ∀ g, Graph.create nodes ≠ .ok g := by
  intro g hok
  rcases create_ok_inv hok with ⟨-, -, -, h3, -⟩
  rw [first_arity_type_error_eq_none.mp h3 n hn] at he
  simp at he

/-- The parent-of edge relation of a graph: p is a listed parent of the
listed node n. -/
def ParentEdge (g : Graph) (p n : Node) : Prop :=
  n ∈ g.nodes ∧ p ∈ n.in_nodes

/-- First constant of the running example: 1.2, sequence 0. -/
def ex_n0 : Node := .constant 1.2 0 .CONSTANT .REAL

/-- Second constant of the running example: 0.5, sequence 1. -/
def ex_n1 : Node := .constant 0.5 1 .CONSTANT .REAL

/-- ADD node of the running example, parents the two constants. -/
def ex_n2 : Node := .operator [ex_n0, ex_n1] 2 .ADD .REAL

/-- The running example node list [constant, constant, ADD]. -/
def ex_nodes : List Node := [ex_n0, ex_n1, ex_n2]

/-- The running example graph. -/
def ex_graph : Graph := ⟨ex_nodes⟩

/-- C1: in every graph accepted by the validator, every parent of every
OperatorNode has a strictly smaller sequence number; consequently the
parent relation of the graph has no cycle (no node is a strict ancestor of
itself) and the listed order is a topological order (a parent listed at
position j of a node listed at position i has j < i), with no separate
cycle-detection traversal. -/
theorem c1_backward_parents_acyclic (nodes : List Node) (g : Graph)
    (h : Graph.create nodes = .ok g) :
    (∀ n ∈ g.nodes, ∀ p ∈ n.in_nodes, p.sequence < n.sequence) ∧
    (∀ n : Node, ¬ Relation.TransGen (ParentEdge g) n n) ∧
    (∀ i j n p, g.nodes.get? i = some n → g.nodes.get? j = some p →
      p ∈ n.in_nodes → j < i) := by
  rcases create_ok_inv h with ⟨hg, h1, h2, -, -⟩
  subst hg
  have hdirect : ∀ n ∈ nodes, ∀ p ∈ n.in_nodes, p.sequence < n.sequence :=
    fun n hn p hp => parent_order_spec h2 hn hp
  refine ⟨hdirect, ?_, ?_⟩
  · have hstep : ∀ a b : Node, ParentEdge ⟨nodes⟩ a b → a.sequence < b.sequence := by
      rintro a b ⟨hb, ha⟩
      exact hdirect b hb a ha
    have htrans : ∀ a b : Node, Relation.TransGen (ParentEdge ⟨nodes⟩) a b →
        a.sequence < b.sequence := by
      intro a b htg
      induction htg with
      | single h0 => exact hstep _ _ h0
      | tail _ h0 ih => exact lt_trans ih (hstep _ _ h0)
    intro n htg
    exact lt_irrefl _ (htrans n n htg)
  · intro i j n p hi hj hp
    have hn : n ∈ nodes := List.get?_mem hi
    have hsn := sequence_check_spec h1 hi
    have hsp := sequence_check_spec h1 hj
    have hlt := hdirect n hn p hp
    omega

/-- Witness for C1: the three-node example graph is accepted and satisfies
the backward-reference, acyclicity and topological-order conclusions. -/
theorem c1_backward_parents_acyclic_witness :
    (∀ n ∈ ex_graph.nodes, ∀ p ∈ n.in_nodes, p.sequence < n.sequence) ∧
    (∀ n : Node, ¬ Relation.TransGen (ParentEdge ex_graph) n n) ∧
    (∀ i j n p, ex_graph.nodes.get? i = some n → ex_graph.nodes.get? j = some p →
      p ∈ n.in_nodes → j < i) :=
  c1_backward_parents_acyclic ex_nodes ex_graph rfl

/-- The density property the spec demands of query indices: no duplicates
and exactly the values 0..k-1, for k the number of queries. -/
def dense_indices (qs : List Nat) : Prop :=
  qs.Nodup ∧ ∀ i, i ∈ qs ↔ i < qs.length

/-- A single query over the first example constant, query_index 0. -/
def exq_n1 : Node := .query 0 [ex_n0] 1 .QUERY .NONE

/-- Example node list with one query: [constant, query]. -/
def exq_nodes : List Node := [ex_n0, exq_n1]

/-- C2: for every graph accepted by the validator the query_index values
over all QueryNodes are exactly the dense zero-based range 0..k-1 with no
duplicates; when the indices of a node list are not such a range no Graph
is produced, and when every other check passes the failure is
DuplicateQueryIndex or QueryIndexGap. -/
theorem c2_query_indices_dense (nodes : List Node) :
    (∀ g, Graph.create nodes = .ok g → dense_indices (query_indices g.nodes)) ∧
    (¬ dense_indices (query_indices nodes) →
      (∀ g, Graph.create nodes ≠ .ok g) ∧
      (sequence_check nodes = true → parent_order_check nodes = true →
        first_arity_type_error nodes = none →
        Graph.create nodes = .error .DuplicateQueryIndex ∨
        Graph.create nodes = .error .QueryIndexGap)) := by
  have hkey : ∀ g, Graph.create nodes = .ok g → dense_indices (query_indices g.nodes) := by
    intro g hok
    rcases create_ok_inv hok with ⟨hg, -, -, -, h4⟩
    subst hg
    rcases query_index_check_none_iff.mp h4 with ⟨hnd, hlt⟩
    exact ⟨hnd, fun i =>
      ⟨fun hi => hlt i hi, fun hi => mem_of_nodup_lt_length hnd hlt i hi⟩⟩
  refine ⟨hkey, fun hdense => ⟨fun g hok => ?_, ?_⟩⟩
  · rcases create_ok_inv hok with ⟨rfl, -, -, -, -⟩
    exact hdense (hkey _ hok)
  intro h1 h2 h3
  cases h4 : query_index_check nodes with
  | none =>
    exfalso
    rcases query_index_check_none_iff.mp h4 with ⟨hnd, hlt⟩
    exact hdense ⟨hnd, fun i =>
      ⟨fun hi => hlt i hi, fun hi => mem_of_nodup_lt_length hnd hlt i hi⟩⟩
  | some e =>
    have hcreate : Graph.create nodes = .error e := by
      unfold Graph.create
      rw [if_neg (not_not_intro h1), if_neg (not_not_intro h2), h3, h4]
    unfold query_index_check at h4
    by_cases hdup : has_dup (query_indices nodes) = true
    · rw [if_pos hdup] at h4
      simp only [Option.some.injEq] at h4
      subst h4
      exact Or.inl hcreate
    · rw [if_neg hdup] at h4
      by_cases hany :
          ((query_indices nodes).any fun q => (query_indices nodes).length ≤ q) = true
      · rw [if_pos hany] at h4
        simp only [Option.some.injEq] at h4
        subst h4
        exact Or.inr hcreate
      · rw [if_neg hany] at h4
        simp at h4

/-- Witness for C2: the accepted one-query example graph has dense query
indices. -/
theorem c2_query_indices_dense_witness :
    dense_indices (query_indices exq_nodes) :=
  (c2_query_indices_dense exq_nodes).1 ⟨exq_nodes⟩ rfl

/-- C9: validation is idempotent: re-running Graph.create on the node list
of an accepted graph succeeds and yields the same graph. -/
theorem c9_validation_idempotent (nodes : List Node) (g : Graph)
    (h : Graph.create nodes = .ok g) :
    Graph.create g.nodes = .ok g := by
  rcases create_ok_inv h with ⟨hg, -, -, -, -⟩
  subst hg
  exact h

/-- Witness for C9 at the three-node example graph. -/
theorem c9_validation_idempotent_witness :
    Graph.create ex_graph.nodes = .ok ex_graph :=
  c9_validation_idempotent ex_nodes ex_graph rfl

/-- C3: Factory::add_operator performs no arity or type checking itself:
whenever every parent id is in range it succeeds and returns the fresh node
id, for any operator and any parent count; in particular add_operator(ADD,
[c1]) with a single parent succeeds at call time, and the arity violation
is detected only when build() fails with ArityMismatch. -/
theorem c3_add_operator_defers_checks :
    (∀ (f : Factory) (op : Operator) (parents : List Nat),
      (∀ p ∈ parents, p < f.nodes.length) →
      ∃ f2, f.add_operator op parents = .ok (f2, f.nodes.length)) ∧
    (∃ f1, ((Factory.empty.add_constant 1).1).add_operator .ADD [0] = .ok (f1, 1) ∧
      f1.build = .error .ArityMismatch) := by
  constructor
  · intro f op parents hp
    have hnone : f.lookup_parents parents ≠ none := by
      rw [Ne, lookup_parents_eq_none_iff]
      rintro ⟨q, hq, hge⟩
      exact absurd (hp q hq) (Nat.not_lt.mpr hge)
    rcases Option.ne_none_iff_exists'.mp hnone with ⟨ns, hns⟩
    refine ⟨⟨f.nodes ++ [Node.operator ns f.nodes.length op ((op_result op).getD .NONE)],
      f.next_query⟩, ?_⟩
    unfold Factory.add_operator
    rw [hns]
  · exact ⟨_, rfl, rfl⟩

/-- Witness for C3: an out-of-catalog call with duplicated parents also
succeeds at call time on a one-node factory. -/
theorem c3_add_operator_defers_checks_witness :
    ∃ f2, ((Factory.empty.add_constant 1).1).add_operator .MULTIPLY [0, 0] =
      .ok (f2, 1) :=
  c3_add_operator_defers_checks.1 (Factory.empty.add_constant 1).1 .MULTIPLY [0, 0]
    (by decide)

/-- Initial one-constant factory of the MULTIPLY example. -/
def c4_f0 : Factory := (Factory.empty.add_constant 0.5).1

/-- The Bernoulli distribution node of the MULTIPLY example, sequence 1. -/
def c4_bern : Node :=
  .operator [.constant 0.5 0 .CONSTANT .REAL] 1 .DISTRIBUTION_BERNOULLI .DISTRIBUTION

/-- The factory after adding the Bernoulli node. -/
def c4_fb : Factory := ⟨c4_f0.nodes ++ [c4_bern], 0⟩

/-- The MULTIPLY node whose first parent is the distribution, sequence 2. -/
def c4_mult : Node :=
  .operator [c4_bern, .constant 0.5 0 .CONSTANT .REAL] 2 .MULTIPLY .REAL

/-- The factory after adding the MULTIPLY node over [distribution, constant]. -/
def c4_fm : Factory := ⟨c4_fb.nodes ++ [c4_mult], 0⟩

/-- C4: after add_operator(MULTIPLY, [d, c]) where node d has result type
DISTRIBUTION, build() yields no Graph; on the concrete
constant/Bernoulli/MULTIPLY factory the failure is TypeMismatch. -/
theorem c4_multiply_distribution_type_mismatch (f f2 : Factory) (d c id : Nat)
    (dn : Node) (hd : f.nodes.get? d = some dn) (hdt : dn.type = .DISTRIBUTION)
    (hok : f.add_operator .MULTIPLY [d, c] = .ok (f2, id)) :
    (∀ g, f2.build ≠ .ok g) ∧
    (∃ fb fm : Factory,
      ((Factory.empty.add_constant 0.5).1).add_operator .DISTRIBUTION_BERNOULLI [0] =
        .ok (fb, 1) ∧
      fb.add_operator .MULTIPLY [1, 0] = .ok (fm, 2) ∧
      fm.build = .error .TypeMismatch) := by
  constructor
  · unfold Factory.add_operator at hok
    unfold Factory.lookup_parents at hok
    unfold Factory.lookup_parents at hok
    rw [hd] at hok
    cases hc : f.nodes.get? c with
    | none =>
      rw [hc] at hok
      simp at hok
    | some cn =>
      rw [hc] at hok
      simp only [Factory.lookup_parents, Except.ok.injEq, Prod.mk.injEq] at hok
      obtain ⟨hf2, -⟩ := hok
      have he : node_arity_type
          (Node.operator [dn, cn] f.nodes.length .MULTIPLY
            ((op_result .MULTIPLY).getD .NONE)) = some .TypeMismatch := by
        unfold node_arity_type
        simp [Node.is_operator_node, Node.op, Node.in_nodes, expected_parents, hdt]
      intro g hbuild
      have hmem : Node.operator [dn, cn] f.nodes.length .MULTIPLY
          ((op_result .MULTIPLY).getD .NONE) ∈ f2.nodes := by
        rw [← hf2]
        simp
      exact create_ne_ok_of_arity_type_error hmem he g hbuild
  · exact ⟨_, _, rfl, rfl, rfl⟩

/-- Witness for C4 at the concrete constant/Bernoulli/MULTIPLY factory. -/
theorem c4_multiply_distribution_type_mismatch_witness :
    (∀ g, c4_fm.build ≠ .ok g) ∧
    (∃ fb fm : Factory,
      ((Factory.empty.add_constant 0.5).1).add_operator .DISTRIBUTION_BERNOULLI [0] =
        .ok (fb, 1) ∧
      fb.add_operator .MULTIPLY [1, 0] = .ok (fm, 2) ∧
      fm.build = .error .TypeMismatch) :=
  c4_multiply_distribution_type_mismatch c4_fb c4_fm 1 0 2 c4_bern rfl rfl rfl

/-- C5: the three id-consuming Factory operations fail with UnknownParent
exactly when a supplied id does not refer to an already-added node, and
add_query in particular fails at call time; an in-range id makes get_node
return a node. -/
theorem c5_unknown_parent_exactly (f : Factory) (id : Nat) (op : Operator)
    (parents : List Nat) :
    (f.get_node id = .error .UnknownParent ↔ f.nodes.length ≤ id) ∧
    (id < f.nodes.length → ∃ n, f.get_node id = .ok n) ∧
    (f.add_query id = .error .UnknownParent ↔ f.nodes.length ≤ id) ∧
    (f.add_operator op parents = .error .UnknownParent ↔
      ∃ p ∈ parents, f.nodes.length ≤ p) := by
  refine ⟨?_, ?_, ?_, ?_⟩
  · unfold Factory.get_node
    cases hg : f.nodes.get? id with
    | none => simp [List.get?_eq_none.mp hg]
    | some n =>
      constructor
      · intro h
        simp at h
      · intro hge
        rw [List.get?_eq_none.mpr hge] at hg
        simp at hg
  · intro hlt
    unfold Factory.get_node
    rw [List.get?_eq_get hlt]
    exact ⟨_, rfl⟩
  · unfold Factory.add_query
    cases hg : f.nodes.get? id with
    | none => simp [List.get?_eq_none.mp hg]
    | some n =>
      constructor
      · intro h
        simp at h
      · intro hge
        rw [List.get?_eq_none.mpr hge] at hg
        simp at hg
  · unfold Factory.add_operator
    cases hl : f.lookup_parents parents with
    | none =>
      constructor
      · intro _
        exact lookup_parents_eq_none_iff.mp hl
      · intro _
        rfl
    | some ps =>
      constructor
      · intro h
        simp at h
      · intro hbad
        rw [lookup_parents_eq_none_iff.mpr hbad] at hl
        simp at hl

/-- Witness for C5: add_query on an empty factory fails immediately with
UnknownParent. -/
theorem c5_unknown_parent_exactly_witness :
    Factory.empty.add_query 0 = .error .UnknownParent :=
  (c5_unknown_parent_exactly Factory.empty 0 .ADD []).2.2.1.mpr (by decide)

/-- C6: add_query returns the sequence id of the newly appended QueryNode
(the current node-list length), not the query index; the query index comes
from the next-query counter and is read off the returned node. -/
theorem c6_add_query_returns_node_id (f : Factory) (p : Nat)
    (h : p < f.nodes.length) :
    ∃ f2 pn, f.add_query p = .ok (f2, f.nodes.length) ∧
      f2.nodes.get? f.nodes.length =
        some (.query f.next_query [pn] f.nodes.length .QUERY .NONE) := by
  unfold Factory.add_query
  rw [List.get?_eq_get h]
  exact ⟨_, f.nodes.get ⟨p, h⟩, rfl, List.get?_concat_length _ _⟩

/-- A factory holding two constants, so that sequence ids and query indices
diverge. -/
def c6_f : Factory := ((Factory.empty.add_constant 1).1.add_constant 2).1

/-- Witness for C6: on the two-constant factory the returned id is 2 while
the query index of the appended node is 0, and the two differ. -/
theorem c6_add_query_returns_node_id_witness :
    (∃ f2 pn, c6_f.add_query 0 = .ok (f2, 2) ∧
      f2.nodes.get? 2 = some (.query 0 [pn] 2 .QUERY .NONE)) ∧ (2 : Nat) ≠ 0 :=
  ⟨c6_add_query_returns_node_id c6_f 0 (by decide), by decide⟩

/-- Constant parent of the manually assembled gap example. -/
def gap_c : Node := .constant 1 0 .CONSTANT .REAL

/-- Manually assembled node list whose query indices are {0, 2}. -/
def gap_nodes : List Node :=
  [gap_c, .query 0 [gap_c] 1 .QUERY .NONE, .query 2 [gap_c] 2 .QUERY .NONE]

/-- C7: add_query assigns the appended QueryNode's query_index from the
Factory's next-query counter and then increments the counter; two queries
added in sequence to a fresh Factory receive query indices 0 and 1; the
manually assembled node list with indices {0, 2} fails validation with
QueryIndexGap. -/
theorem c7_query_index_counter (f f2 : Factory) (p id : Nat)
    (h : f.add_query p = .ok (f2, id)) :
    (∃ pn, f2.nodes.get? id = some (.query f.next_query [pn] id .QUERY .NONE)) ∧
    f2.next_query = f.next_query + 1 ∧
    (∃ g1 g2, ((Factory.empty.add_constant 1).1).add_query 0 = .ok (g1, 1) ∧
      g1.add_query 0 = .ok (g2, 2) ∧ query_indices g2.nodes = [0, 1]) ∧
    Graph.create gap_nodes = .error .QueryIndexGap := by
  unfold Factory.add_query at h
  cases hp : f.nodes.get? p with
  | none =>
    rw [hp] at h
    simp at h
  | some pn =>
    rw [hp] at h
    simp only [Except.ok.injEq, Prod.mk.injEq] at h
    obtain ⟨hf2, hid⟩ := h
    subst hid
    refine ⟨⟨pn, ?_⟩, ?_, ⟨_, _, rfl, rfl, rfl⟩, rfl⟩
    · rw [← hf2]
      exact List.get?_concat_length _ _
    · rw [← hf2]

/-- Fresh one-constant factory of the C7 witness. -/
def c7_f0 : Factory := (Factory.empty.add_constant 1).1

/-- That factory after one add_query. -/
def c7_f1 : Factory :=
  ⟨c7_f0.nodes ++ [.query 0 [.constant 1 0 .CONSTANT .REAL] 1 .QUERY .NONE], 1⟩

/-- Witness for C7 at the one-constant factory. -/
theorem c7_query_index_counter_witness :
    (∃ pn, c7_f1.nodes.get? 1 = some (.query 0 [pn] 1 .QUERY .NONE)) ∧
    c7_f1.next_query = 0 + 1 ∧
    (∃ g1 g2, ((Factory.empty.add_constant 1).1).add_query 0 = .ok (g1, 1) ∧
      g1.add_query 0 = .ok (g2, 2) ∧ query_indices g2.nodes = [0, 1]) ∧
    Graph.create gap_nodes = .error .QueryIndexGap :=
  c7_query_index_counter c7_f0 c7_f1 0 1 rfl

/-- C8: add_constant always succeeds, appending a ConstantNode carrying the
literal with the freshly assigned sequence id (its creation-order position,
starting from 0) and returning that id; the Factory holding
[constant(1.2)=0, constant(0.5)=1, ADD(0,1)=2] builds into a 3-node Graph
whose node 2 has result type REAL and parents exactly nodes 0 and 1, in
that order. -/
theorem c8_add_constant_build (f : Factory) (v : Rat) :
    f.add_constant v =
      (⟨f.nodes ++ [.constant v f.nodes.length .CONSTANT .REAL], f.next_query⟩,
        f.nodes.length) ∧
    (∃ fa g,
      ((((Factory.empty.add_constant 1.2).1).add_constant 0.5).1).add_operator
        .ADD [0, 1] = .ok (fa, 2) ∧
      fa.build = .ok g ∧ g.nodes.length = 3 ∧
      g.nodes.get? 2 = some (.operator [ex_n0, ex_n1] 2 .ADD .REAL)) :=
  ⟨rfl, _, _, rfl, rfl, rfl, rfl⟩

/-- Witness for C8 at the empty factory and the literal 7. -/
theorem c8_add_constant_build_witness :
    Factory.empty.add_constant 7 =
      (⟨[.constant 7 0 .CONSTANT .REAL], 0⟩, 0) ∧
    (∃ fa g,
      ((((Factory.empty.add_constant 1.2).1).add_constant 0.5).1).add_operator
        .ADD [0, 1] = .ok (fa, 2) ∧
      fa.build = .ok g ∧ g.nodes.length = 3 ∧
      g.nodes.get? 2 = some (.operator [ex_n0, ex_n1] 2 .ADD .REAL)) :=
  c8_add_constant_build Factory.empty 7

/-- Constant 0.5, sequence 0, of the full-catalog example graph. -/
def ex10_c0 : Node := .constant 0.5 0 .CONSTANT .REAL

/-- Constant 1, sequence 1, of the full-catalog example graph. -/
def ex10_c1 : Node := .constant 1 1 .CONSTANT .REAL

/-- Normal distribution over the two constants, sequence 2. -/
def ex10_norm : Node := .operator [ex10_c0, ex10_c1] 2 .DISTRIBUTION_NORMAL .DISTRIBUTION

/-- Sample of the normal distribution, sequence 3. -/
def ex10_samp : Node := .operator [ex10_norm] 3 .SAMPLE .REAL

/-- Observation of the normal distribution at the constant, sequence 4. -/
def ex10_obs : Node := .operator [ex10_norm, ex10_c1] 4 .OBSERVE .NONE

/-- Sum of a constant and the sample, sequence 5. -/
def ex10_add : Node := .operator [ex10_c0, ex10_samp] 5 .ADD .REAL

/-- Product of the sum and a constant, sequence 6. -/
def ex10_mul : Node := .operator [ex10_add, ex10_c1] 6 .MULTIPLY .REAL

/-- Bernoulli distribution over a constant, sequence 7. -/
def ex10_bern : Node := .operator [ex10_c0] 7 .DISTRIBUTION_BERNOULLI .DISTRIBUTION

/-- Beta distribution over the two constants, sequence 8. -/
def ex10_beta : Node := .operator [ex10_c0, ex10_c1] 8 .DISTRIBUTION_BETA .DISTRIBUTION

/-- Query of the product, sequence 9, query index 0. -/
def ex10_q : Node := .query 0 [ex10_mul] 9 .QUERY .NONE

/-- A valid graph exercising every real operator of the catalog. -/
def ex10_nodes : List Node := [ex10_c0, ex10_c1, ex10_norm, ex10_samp, ex10_obs,
  ex10_add, ex10_mul, ex10_bern, ex10_beta, ex10_q]

/-- C10: the concrete operator catalog: ADD and MULTIPLY take exactly two
REAL parents and yield REAL; DISTRIBUTION_NORMAL and DISTRIBUTION_BETA take
exactly two REAL parents and DISTRIBUTION_BERNOULLI exactly one REAL
parent, each yielding DISTRIBUTION; SAMPLE takes exactly one DISTRIBUTION
parent and yields REAL; OBSERVE takes exactly two parents, a DISTRIBUTION
then a REAL, and yields NONE; QUERY takes exactly one REAL parent and
yields NONE; CONSTANT takes no parents and yields REAL; the sentinel LAST
has no catalog row, and the validator enforces the catalog: in every
accepted graph every OperatorNode carries exactly the catalog parent types
of its operator, so no accepted OperatorNode carries LAST. -/
theorem c10_operator_catalog (nodes : List Node) (g : Graph)
    (h : Graph.create nodes = .ok g) :
    (expected_parents .ADD = some [.REAL, .REAL] ∧ op_result .ADD = some .REAL) ∧
    (expected_parents .MULTIPLY = some [.REAL, .REAL] ∧
      op_result .MULTIPLY = some .REAL) ∧
    (expected_parents .DISTRIBUTION_NORMAL = some [.REAL, .REAL] ∧
      op_result .DISTRIBUTION_NORMAL = some .DISTRIBUTION) ∧
    (expected_parents .DISTRIBUTION_BETA = some [.REAL, .REAL] ∧
      op_result .DISTRIBUTION_BETA = some .DISTRIBUTION) ∧
    (expected_parents .DISTRIBUTION_BERNOULLI = some [.REAL] ∧
      op_result .DISTRIBUTION_BERNOULLI = some .DISTRIBUTION) ∧
    (expected_parents .SAMPLE = some [.DISTRIBUTION] ∧
      op_result .SAMPLE = some .REAL) ∧
    (expected_parents .OBSERVE = some [.DISTRIBUTION, .REAL] ∧
      op_result .OBSERVE = some .NONE) ∧
    (expected_parents .QUERY = some [.REAL] ∧ op_result .QUERY = some .NONE) ∧
    (expected_parents .CONSTANT = some [] ∧ op_result .CONSTANT = some .REAL) ∧
    (expected_parents .LAST = none ∧ op_result .LAST = none) ∧
    (∀ n ∈ g.nodes, n.is_operator_node = true →
      expected_parents n.op = some (n.in_nodes.map Node.type) ∧ n.op ≠ .LAST) := by
  refine ⟨⟨rfl, rfl⟩, ⟨rfl, rfl⟩, ⟨rfl, rfl⟩, ⟨rfl, rfl⟩, ⟨rfl, rfl⟩, ⟨rfl, rfl⟩,
    ⟨rfl, rfl⟩, ⟨rfl, rfl⟩, ⟨rfl, rfl⟩, ⟨rfl, rfl⟩, ?_⟩
  rcases create_ok_inv h with ⟨rfl, -, -, h3, -⟩
  intro n hn hop
  have hnone := first_arity_type_error_eq_none.mp h3 n hn
  have hexp := node_arity_type_none_inv hnone hop
  refine ⟨hexp, fun hlast => ?_⟩
  rw [hlast] at hexp
  simp [expected_parents] at hexp

/-- Witness for C10 at the full-catalog example graph. -/
theorem c10_operator_catalog_witness :
    (expected_parents .ADD = some [.REAL, .REAL] ∧ op_result .ADD = some .REAL) ∧
    (expected_parents .MULTIPLY = some [.REAL, .REAL] ∧
      op_result .MULTIPLY = some .REAL) ∧
    (expected_parents .DISTRIBUTION_NORMAL = some [.REAL, .REAL] ∧
      op_result .DISTRIBUTION_NORMAL = some .DISTRIBUTION) ∧
    (expected_parents .DISTRIBUTION_BETA = some [.REAL, .REAL] ∧
      op_result .DISTRIBUTION_BETA = some .DISTRIBUTION) ∧
    (expected_parents .DISTRIBUTION_BERNOULLI = some [.REAL] ∧
      op_result .DISTRIBUTION_BERNOULLI = some .DISTRIBUTION) ∧
    (expected_parents .SAMPLE = some [.DISTRIBUTION] ∧
      op_result .SAMPLE = some .REAL) ∧
    (expected_parents .OBSERVE = some [.DISTRIBUTION, .REAL] ∧
      op_result .OBSERVE = some .NONE) ∧
    (expected_parents .QUERY = some [.REAL] ∧ op_result .QUERY = some .NONE) ∧
    (expected_parents .CONSTANT = some [] ∧ op_result .CONSTANT = some .REAL) ∧
    (expected_parents .LAST = none ∧ op_result .LAST = none) ∧
    (∀ n ∈ (Graph.mk ex10_nodes).nodes, n.is_operator_node = true →
      expected_parents n.op = some (n.in_nodes.map Node.type) ∧ n.op ≠ .LAST) :=
  c10_operator_catalog ex10_nodes ⟨ex10_nodes⟩ rfl

end minibmg
